import Mathlib

/-!
Verification development for the xtream-api-proxy repository
(source files `src/filters.py` and `src/server.py`).

The Python code operates on parsed JSON values (dicts, lists, strings,
integers, booleans, null).  We embed those values as the inductive type
`JVal`; a catalog item, category, or JSON object is an association list
from string keys to `JVal` (`Item`), mirroring an insertion-ordered
Python dict (lookup takes the first match; assignment replaces the first
matching key in place and appends new keys at the end, which coincides
with CPython dict semantics whenever keys are unique, as they always are
for real dicts).  Floating point numbers are not modelled: none of the
verified properties depends on them.  Network and file-system effects are
modelled by passing their results (`Except`/`Option` values) explicitly.
-/

namespace XtreamProxy

/-- JSON-ish values as produced by `json.loads` in the Python source
(floats omitted, see the file header). -/
inductive JVal where
  | jnull : JVal
  | jbool : Bool → JVal
  | jint : Int → JVal
  | jstr : String → JVal
  | jarr : List JVal → JVal
  | jobj : List (String × JVal) → JVal

/- Structural equality of JSON values, mirroring Python `==` on values
decoded from JSON.  (Python additionally identifies `True == 1` and
`False == 0`; no code path verified here compares booleans with
integers, so plain structural equality is faithful.) -/
mutual

def jvalBeq : JVal → JVal → Bool
  | .jnull, .jnull => true
  | .jbool a, .jbool b => a == b
  | .jint a, .jint b => a == b
  | .jstr a, .jstr b => a == b
  | .jarr xs, .jarr ys => jlistBeq xs ys
  | .jobj xs, .jobj ys => jfieldsBeq xs ys
  | _, _ => false

def jlistBeq : List JVal → List JVal → Bool
  | [], [] => true
  | x :: xs, y :: ys => jvalBeq x y && jlistBeq xs ys
  | _, _ => false

def jfieldsBeq : List (String × JVal) → List (String × JVal) → Bool
  | [], [] => true
  | (k, v) :: xs, (k2, v2) :: ys => k == k2 && jvalBeq v v2 && jfieldsBeq xs ys
  | _, _ => false

end

mutual

theorem jvalBeq_iff : (a b : JVal) → (jvalBeq a b = true ↔ a = b)
  | .jnull, .jnull => by simp [jvalBeq]
  | .jbool x, .jbool y => by simp [jvalBeq]
  | .jint x, .jint y => by simp [jvalBeq]
  | .jstr x, .jstr y => by simp [jvalBeq]
  | .jarr xs, .jarr ys => by
      have h := jlistBeq_iff xs ys
      simp [jvalBeq, h]
  | .jobj xs, .jobj ys => by
      have h := jfieldsBeq_iff xs ys
      simp [jvalBeq, h]
  | .jnull, .jbool _ => by simp [jvalBeq]
  | .jnull, .jint _ => by simp [jvalBeq]
  | .jnull, .jstr _ => by simp [jvalBeq]
  | .jnull, .jarr _ => by simp [jvalBeq]
  | .jnull, .jobj _ => by simp [jvalBeq]
  | .jbool _, .jnull => by simp [jvalBeq]
  | .jbool _, .jint _ => by simp [jvalBeq]
  | .jbool _, .jstr _ => by simp [jvalBeq]
  | .jbool _, .jarr _ => by simp [jvalBeq]
  | .jbool _, .jobj _ => by simp [jvalBeq]
  | .jint _, .jnull => by simp [jvalBeq]
  | .jint _, .jbool _ => by simp [jvalBeq]
  | .jint _, .jstr _ => by simp [jvalBeq]
  | .jint _, .jarr _ => by simp [jvalBeq]
  | .jint _, .jobj _ => by simp [jvalBeq]
  | .jstr _, .jnull => by simp [jvalBeq]
  | .jstr _, .jbool _ => by simp [jvalBeq]
  | .jstr _, .jint _ => by simp [jvalBeq]
  | .jstr _, .jarr _ => by simp [jvalBeq]
  | .jstr _, .jobj _ => by simp [jvalBeq]
  | .jarr _, .jnull => by simp [jvalBeq]
  | .jarr _, .jbool _ => by simp [jvalBeq]
  | .jarr _, .jint _ => by simp [jvalBeq]
  | .jarr _, .jstr _ => by simp [jvalBeq]
  | .jarr _, .jobj _ => by simp [jvalBeq]
  | .jobj _, .jnull => by simp [jvalBeq]
  | .jobj _, .jbool _ => by simp [jvalBeq]
  | .jobj _, .jint _ => by simp [jvalBeq]
  | .jobj _, .jstr _ => by simp [jvalBeq]
  | .jobj _, .jarr _ => by simp [jvalBeq]

theorem jlistBeq_iff : (a b : List JVal) → (jlistBeq a b = true ↔ a = b)
  | [], [] => by simp [jlistBeq]
  | [], _ :: _ => by simp [jlistBeq]
  | _ :: _, [] => by simp [jlistBeq]
  | x :: xs, y :: ys => by
      have h1 := jvalBeq_iff x y
      have h2 := jlistBeq_iff xs ys
      simp [jlistBeq, h1, h2]

theorem jfieldsBeq_iff : (a b : List (String × JVal)) → (jfieldsBeq a b = true ↔ a = b)
  | [], [] => by simp [jfieldsBeq]
  | [], _ :: _ => by simp [jfieldsBeq]
  | _ :: _, [] => by simp [jfieldsBeq]
  | (k, v) :: xs, (k2, v2) :: ys => by
      have h1 := jvalBeq_iff v v2
      have h2 := jfieldsBeq_iff xs ys
      simp [jfieldsBeq, h1, h2, and_assoc]

end

instance : DecidableEq JVal := fun a b =>
  decidable_of_iff (jvalBeq a b = true) (jvalBeq_iff a b)

instance {ε α : Type} [DecidableEq ε] [DecidableEq α] : DecidableEq (Except ε α) :=
  fun a b =>
    match a, b with
    | .error x, .error y =>
        if h : x = y then .isTrue (by rw [h])
        else .isFalse (fun hh => h (Except.error.inj hh))
    | .ok x, .ok y =>
        if h : x = y then .isTrue (by rw [h])
        else .isFalse (fun hh => h (Except.ok.inj hh))
    | .error _, .ok _ => .isFalse (fun h => Except.noConfusion h)
    | .ok _, .error _ => .isFalse (fun h => Except.noConfusion h)

/-- Python truthiness (`bool(x)`): `None`, `False`, `0`, the empty
string, the empty list and the empty dict are falsy, everything else is
truthy. -/
def isFalsy : JVal → Bool
  | .jnull => true
  | .jbool b => !b
  | .jint n => n == 0
  | .jstr s => s.isEmpty
  | .jarr xs => xs.isEmpty
  | .jobj fs => fs.isEmpty

/-- A Python dict with string keys, as an insertion-ordered association
list. -/
abbrev Item := List (String × JVal)

/-- Python `d.get(key)`: `none` when the key is absent.  A present key
with value `null` yields `some .jnull`, which is how Python conflates
the two cases after a `.get(key)` returning `None`. -/
def getField : Item → String → Option JVal
  | [], _ => none
  | (k, v) :: rest, key => if k = key then some v else getField rest key

/-- Python `d[key] = v`: replace the value of an existing key in place,
or append a new key at the end. -/
def setKey : Item → String → JVal → Item
  | [], k, v => [(k, v)]
  | (k2, v2) :: rest, k, v =>
      if k2 = k then (k2, v) :: rest else (k2, v2) :: setKey rest k v

/-- Python `d.setdefault(key, v)`: insert `v` only when `key` is
absent. -/
def setdefault (fields : Item) (k : String) (v : JVal) : Item :=
  match getField fields k with
  | some _ => fields
  | none => fields ++ [(k, v)]

/- Python `str(x)` on a JSON value, used by `apply_filters` on the
resolved category name (`str(cat_name)` in `src/filters.py` line 41).
Scalars follow Python exactly; for lists and dicts we emit the obvious
`repr`-style rendering, simplified in its quoting of exotic strings
(the verified properties never depend on the rendering of a container,
because a container only reaches `str` when it is a truthy category
name, and no filtering theorem inspects the rendered text). -/
mutual

def pyStr : JVal → String
  | .jstr s => s
  | v => pyRepr v

def pyRepr : JVal → String
  | .jnull => "None"
  | .jbool b => if b then "True" else "False"
  | .jint n => toString n
  | .jstr s => "\x27" ++ s ++ "\x27"
  | .jarr xs => "[" ++ pyReprList xs ++ "]"
  | .jobj fs => "\x7b" ++ pyReprFields fs ++ "\x7d"

def pyReprList : List JVal → String
  | [] => ""
  | [x] => pyRepr x
  | x :: xs => pyRepr x ++ ", " ++ pyReprList xs

def pyReprFields : List (String × JVal) → String
  | [] => ""
  | [(k, v)] => "\x27" ++ k ++ "\x27: " ++ pyRepr v
  | (k, v) :: fs => "\x27" ++ k ++ "\x27: " ++ pyRepr v ++ ", " ++ pyReprFields fs

end

/-!
Embedding of `apply_filters` (`src/filters.py`, lines 11 to 48).

In the source the allowed prefixes are read from the configuration file
via `load_config()` (`config["filters"].get(content_type, [])`); the
configuration file itself is out of scope, so the per-content-type list
of allowed prefixes is passed as the `allowedPrefixes` parameter.
Python `str.strip`, `str.upper` and `str.startswith` are modelled on the
underlying character lists (`pyStrip`, `pyUpper`, `strStarts`):
whitespace is `Char.isWhitespace` and upper-casing is ASCII
`Char.toUpper`, adequate for every verified input (CPython additionally
strips some exotic Unicode spaces and upper-cases non-ASCII letters).
-/

/-- Python `s.strip()`: drop whitespace from both ends. -/
def pyStrip (s : String) : String :=
  ⟨((s.data.dropWhile Char.isWhitespace).reverse.dropWhile Char.isWhitespace).reverse⟩

/-- Python `s.upper()` (ASCII). -/
def pyUpper (s : String) : String := ⟨s.data.map Char.toUpper⟩

/-- Prefix test on character lists. -/
def listStarts : List Char → List Char → Bool
  | [], _ => true
  | _ :: _, [] => false
  | p :: ps, c :: cs => p == c && listStarts ps cs

/-- Python `s.startswith(p)` for one candidate prefix. -/
def strStarts (p s : String) : Bool := listStarts p.data s.data

/-- Resolution of the category name of one item (`src/filters.py` lines
30 to 34): the `category_name` field, falling back to the `name` field
when the former is absent or falsy. -/
def resolveCatName (item : Item) : JVal :=
  let catName := (getField item "category_name").getD (.jstr "")
  if isFalsy catName then (getField item "name").getD (.jstr "") else catName

/-- Decision for one item inside the `for` loop of `apply_filters`
(`src/filters.py` lines 28 to 46): drop when no category name resolves,
otherwise keep exactly when the trimmed upper-cased name starts with one
of the already-cleaned prefixes. -/
def keepItem (cleanPs : List String) (item : Item) : Bool :=
  let catName := resolveCatName item
  if isFalsy catName then false
  else cleanPs.any (fun p => strStarts p (pyUpper (pyStrip (pyStr catName))))

/-- Embedding of `apply_filters(data, content_type)` from
`src/filters.py`: identity when no prefixes are configured for the
content type, otherwise a keep-filter over the items in order. -/
def apply_filters (data : List Item) (allowedPrefixes : List String) : List Item :=
  if allowedPrefixes.isEmpty then data
  else
    let cleanPs := allowedPrefixes.map (fun p => pyUpper (pyStrip p))
    data.filter (keepItem cleanPs)

/-!
Embedding of `src/server.py`.

Shared mutable state of the server is gathered in `ServerState`: the
cache file on disk (`CACHE_FILE`), the global `IN_MEMORY_CACHE`, the two
`SEARCH_INDEX` tables and the global `JOB_STATUS` dict.  Outbound
network calls and the disk write are modelled by an explicit environment
(`RefreshEnv`) carrying their results: a fetch that fails in any way the
source treats as fatal (network error, non-2xx handling, body that is
not JSON, body of an unusable shape) is an `Except.error` carrying the
exception text `str(e)`.
-/

/-- State field of the `JOB_STATUS` dict: one of the strings `IDLE`,
`RUNNING`, `ERROR` (`src/server.py` lines 33, 94, 155, 161). -/
inductive JobState where
  | idle : JobState
  | running : JobState
  | error : JobState
  deriving DecidableEq

/-- The global `JOB_STATUS` dict (`src/server.py` line 33). -/
structure JobStatus where
  state : JobState
  message : String
  lastRun : Option String
  deriving DecidableEq

/-- The in-memory index tables: Python dicts from `int` keys to items
(`SEARCH_INDEX`, `src/server.py` lines 28 to 31). -/
abbrev IdIndex := List (Int × Item)

/-- The cache structure written by `perform_refresh` (`src/server.py`
lines 139 to 145): a last-updated stamp plus, for each content type,
the filtered items and the retained categories. -/
structure Snapshot where
  lastUpdated : String
  liveData : List Item
  vodData : List Item
  seriesData : List Item
  liveCats : List Item
  vodCats : List Item
  seriesCats : List Item
  deriving DecidableEq

/-- The on-disk cache file: missing, holding a well-formed snapshot, or
unreadable (truncated or incompletely written JSON that `json.load`
refuses to parse). -/
inductive DiskState where
  | absent : DiskState
  | snapFile : Snapshot → DiskState
  | corrupt : DiskState
  deriving DecidableEq

/-- The shared mutable state of the process. -/
structure ServerState where
  disk : DiskState
  mem : Option Snapshot
  vodIndex : IdIndex
  seriesIndex : IdIndex
  job : JobStatus
  deriving DecidableEq

/-- Python `int(s)` on a string: strip surrounding whitespace, then an
optional sign followed by one or more decimal digits; anything else
raises `ValueError`, modelled as `none`.  (Underscore digit separators
and non-ASCII digits, which CPython also accepts, are not modelled; no
verified input uses them.) -/
def pyIntOfString (s : String) : Option Int :=
  let cs := (pyStrip s).data
  match cs with
  | [] => none
  | c :: rest =>
    if c = '+' then
      if rest.isEmpty || !rest.all Char.isDigit then none
      else some (rest.foldl (fun a d => a * 10 + ((d.toNat : Int) - 48)) 0)
    else if c = '-' then
      if rest.isEmpty || !rest.all Char.isDigit then none
      else some (-(rest.foldl (fun a d => a * 10 + ((d.toNat : Int) - 48)) 0))
    else
      if !cs.all Char.isDigit then none
      else some (cs.foldl (fun a d => a * 10 + ((d.toNat : Int) - 48)) 0)

/-- Python `int(x)` on a JSON value (`int(v.get("stream_id"))` in
`load_cache_to_memory`, `src/server.py` lines 74 and 78): succeeds on
integers, numeric strings and booleans, raises (`none`) otherwise.
`buildIndexAux` applies it only to truthy values, matching the guard
`if v.get("stream_id")` of the source. -/
def coerceId : JVal → Option Int
  | .jint n => some n
  | .jstr s => pyIntOfString s
  | .jbool b => some (if b then 1 else 0)
  | _ => none

/-- Assignment into a Python `int`-keyed dict: replace in place or
append. -/
def intInsert : IdIndex → Int → Item → IdIndex
  | [], n, it => [(n, it)]
  | (m, v) :: rest, n, it =>
      if m = n then (m, it) :: rest else (m, v) :: intInsert rest n it

/-- Python `SEARCH_INDEX[kind].get(some_id)`. -/
def lookupIdx : IdIndex → Int → Option Item
  | [], _ => none
  | (m, v) :: rest, n => if m = n then some v else lookupIdx rest n

/-- Identifier value of an item as the comprehension guard reads it:
`v.get(idKey)`, with `jnull` for both an absent key and a `null`
value. -/
def itemIdVal (idKey : String) (it : Item) : JVal := (getField it idKey).getD .jnull

/-- One pass of the dict comprehension
`(int(v.get(idKey)): v for v in items if v.get(idKey))` from
`load_cache_to_memory` (`src/server.py` lines 74 and 78).  An item whose
identifier is absent or falsy is filtered out by the comprehension
guard; a truthy identifier that `int` cannot coerce raises `ValueError`,
which aborts the whole comprehension. -/
def buildIndexAux (idKey : String) (acc : IdIndex) : List Item → Except String IdIndex
  | [] => .ok acc
  | it :: rest =>
    if isFalsy (itemIdVal idKey it) then buildIndexAux idKey acc rest
    else
      match coerceId (itemIdVal idKey it) with
      | some n => buildIndexAux idKey (intInsert acc n it) rest
      | none => .error "ValueError: invalid literal for int"

/-- Index construction for one content type of the loaded snapshot. -/
def buildIndex (idKey : String) (items : List Item) : Except String IdIndex :=
  buildIndexAux idKey [] items

/-- Embedding of `load_cache_to_memory` (`src/server.py` lines 58 to
82).  The statement order of the source is significant and preserved:
`IN_MEMORY_CACHE = data` is executed first (line 69), then the VOD index
comprehension (line 74), then the series index comprehension (line 78).
All exceptions are swallowed by the surrounding `try`, so a comprehension
that raises leaves the memory cache already replaced while the failing
index assignment, and every later one, keeps its previous value.  A
missing file returns early; an unreadable file makes `json.load` raise
before any assignment. -/
def loadCacheToMemory (st : ServerState) : ServerState :=
  match st.disk with
  | .absent => st
  | .corrupt => st
  | .snapFile s =>
    match buildIndex "stream_id" s.vodData with
    | .error _ => { st with mem := some s }
    | .ok vi =>
      match buildIndex "series_id" s.seriesData with
      | .error _ => { st with mem := some s, vodIndex := vi }
      | .ok si => { st with mem := some s, vodIndex := vi, seriesIndex := si }

/-!
The refresh pipeline (`perform_refresh`, `src/server.py` lines 92 to
162).
-/

/-- A category lookup keyed by JSON value, as built by
`(c["category_id"]: c for c in raw_cats)` (`src/server.py` line 115). -/
abbrev CatMap := List (JVal × Item)

/-- Insertion into the category lookup (later duplicates overwrite). -/
def catInsert : CatMap → JVal → Item → CatMap
  | [], k, v => [(k, v)]
  | (k2, v2) :: rest, k, v =>
      if jvalBeq k2 k then (k2, v) :: rest else (k2, v2) :: catInsert rest k v

/-- Lookup in the category map, Python `cat_map[c_id]` after an `in`
test. -/
def catGet : CatMap → JVal → Option Item
  | [], _ => none
  | (k2, v) :: rest, k => if jvalBeq k2 k then some v else catGet rest k

/-- The dict comprehension of `src/server.py` line 115: raises
`KeyError` on the first category lacking a `category_id` key. -/
def buildCatMapAux (acc : CatMap) : List Item → Except String CatMap
  | [] => .ok acc
  | c :: rest =>
    match getField c "category_id" with
    | none => .error "KeyError: category_id"
    | some cid => buildCatMapAux (catInsert acc cid c) rest

/-- Category lookup construction for one content type. -/
def buildCatMap (cats : List Item) : Except String CatMap :=
  buildCatMapAux [] cats

/-- Enrichment of one stream (`src/server.py` lines 126 to 129): when
the category identifier of the stream matches a known category, its
`category_name` field is overwritten with that category display name
(with `""` as default).  Mirroring Python, an absent `category_id`
yields `None` (`jnull`), which only matches a category whose identifier
is itself `null`. -/
def enrichStream (catMap : CatMap) (s : Item) : Item :=
  let cid := (getField s "category_id").getD .jnull
  match catGet catMap cid with
  | some cat => setKey s "category_name" ((getField cat "category_name").getD (.jstr ""))
  | none => s

/-- Category identifier of an item as Python reads it with
`s.get("category_id")`: `jnull` both for an absent key and a `null`
value. -/
def refCatId (s : Item) : JVal := (getField s "category_id").getD .jnull

/-- Per-content-type processing after both fetches succeeded
(`src/server.py` lines 126 to 135): enrich every stream, filter, then
retain exactly the fetched categories whose identifier appears on some
retained stream (`kept_cat_ids` is a set, membership is value
equality). -/
def refreshTypePure (catMap : CatMap) (rawCats rawStreams : List Item)
    (ps : List String) : List Item × List Item :=
  let enriched := rawStreams.map (enrichStream catMap)
  let filtered := apply_filters enriched ps
  let keptIds := filtered.map refCatId
  let finalCats := rawCats.filter (fun c => keptIds.any (fun i => jvalBeq i (refCatId c)))
  (filtered, finalCats)

/-- One iteration of the per-content-type loop of `perform_refresh`
(`src/server.py` lines 108 to 135), with the two upstream fetches
supplied as `Except` results in source order: category fetch, category
map construction, stream fetch, then the pure processing. -/
def processType (fetchCats fetchStreams : Except String (List Item))
    (ps : List String) : Except String (List Item × List Item) := do
  let rawCats ← fetchCats
  let catMap ← buildCatMap rawCats
  let rawStreams ← fetchStreams
  pure (refreshTypePure catMap rawCats rawStreams ps)

/-- Environment of one refresh run: the outcome of each upstream fetch,
the configured prefixes per content type, the outcome of the cache-file
write, and the wall-clock stamp. -/
structure RefreshEnv where
  liveCats : Except String (List Item)
  liveStreams : Except String (List Item)
  vodCats : Except String (List Item)
  vodStreams : Except String (List Item)
  seriesCats : Except String (List Item)
  seriesStreams : Except String (List Item)
  livePs : List String
  vodPs : List String
  seriesPs : List String
  writeOk : Except String Unit
  now : String

/-- The sequential loop over the three content types in source order
(live, vod, series); the first failure aborts the whole job. -/
def runAllTypes (env : RefreshEnv) :
    Except String ((List Item × List Item) × (List Item × List Item) × (List Item × List Item)) := do
  let liveRes ← processType env.liveCats env.liveStreams env.livePs
  let vodRes ← processType env.vodCats env.vodStreams env.vodPs
  let seriesRes ← processType env.seriesCats env.seriesStreams env.seriesPs
  pure (liveRes, vodRes, seriesRes)

/-- Embedding of `perform_refresh` (`src/server.py` lines 92 to 162).
The body first sets the job to `RUNNING`, then runs the per-type loop;
on any exception the handler at lines 159 to 162 records `ERROR` and the
exception text without touching disk, memory or indexes.  On full
success the snapshot is written with `json.dump(final_cache,
open(CACHE_FILE, "w"))`: opening with mode `w` truncates the file
before the dump starts, so a failing write leaves the file corrupted
(modelled by `DiskState.corrupt`), while a successful write replaces it
wholesale.  After a successful write, `load_cache_to_memory()` reloads
memory and indexes, and the status becomes `IDLE` with a success
message and a fresh last-run stamp. -/
def performRefresh (env : RefreshEnv) (st : ServerState) : ServerState :=
  let job0 : JobStatus :=
    { state := .running, message := "Starting download...", lastRun := st.job.lastRun }
  match runAllTypes env with
  | .error e => { st with job := { job0 with state := .error, message := e } }
  | .ok (liveRes, vodRes, seriesRes) =>
    let snap : Snapshot :=
      { lastUpdated := env.now
        liveData := liveRes.1
        vodData := vodRes.1
        seriesData := seriesRes.1
        liveCats := liveRes.2
        vodCats := vodRes.2
        seriesCats := seriesRes.2 }
    match env.writeOk with
    | .error e =>
        { st with disk := .corrupt, job := { job0 with state := .error, message := e } }
    | .ok _ =>
        let st2 := loadCacheToMemory { st with disk := .snapFile snap }
        { st2 with
          job := { state := .idle, message := "Last run successful", lastRun := some env.now } }

/-- Reply body of the `/refresh_cache` endpoint. -/
structure TriggerReply where
  status : String
  message : String
  deriving DecidableEq

/-- Embedding of `refresh_cache_endpoint` (`src/server.py` lines 277 to
286): given the current `JOB_STATUS`, return the JSON reply, the job
status as it stands when the handler returns (the handler itself never
writes to `JOB_STATUS`), and whether `background_tasks.add_task
(perform_refresh)` was invoked.  The handler body contains no `await`,
so the test and the scheduling form one atomic block on the event
loop. -/
def refresh_cache_endpoint (job : JobStatus) : TriggerReply × JobStatus × Bool :=
  if job.state = .running then
    ({ status := "Busy", message := "Refresh already in progress" }, job, false)
  else
    ({ status := "Started",
       message := "Refresh started in background. Check /status for progress." }, job, true)

/-!
The detail-merge handlers (`player_api`, `src/server.py` lines 217 to
258).  Each handler is split at its `await`: `playerApi` below performs
the dispatch up to the upstream call, and `getVodInfo` / `getSeriesInfo`
model the remainder of the branch once the upstream response is known.
`upstreamBody` is `some v` when `client.get` together with
`upstream.json()` produced the JSON value `v`, and `none` when either
raised (network failure, timeout, non-JSON body), in which case the
source substitutes the minimal empty structure inside `except`.
-/

/-- The fallback dict of `src/server.py` line 229: an `info` sub-dict
and a `movie_data` sub-dict, both empty. -/
def emptyVodDetail : JVal := .jobj [("info", .jobj []), ("movie_data", .jobj [])]

/-- The fallback of `src/server.py` line 249. -/
def emptySeriesDetail : JVal := .jobj [("info", .jobj []), ("episodes", .jobj [])]

/-- The merge loop of `src/server.py` lines 234 to 236 and 254 to 256:
for each field of the basic record, write it into the target dict only
when the key is absent there or its current value is falsy. -/
def mergeBasic (basic target : Item) : Item :=
  basic.foldl
    (fun acc kv =>
      match getField acc kv.1 with
      | none => setKey acc kv.1 kv.2
      | some w => if isFalsy w then setKey acc kv.1 kv.2 else acc)
    target

/-- Embedding of the `get_vod_info` branch after the upstream call
(`src/server.py` lines 226 to 238).  When a basic record is present and
truthy, the source runs `full_info.setdefault("movie_data", dict())`
followed by the merge loop; a `full_info` that is not a dict (a JSON
body that decoded to a list, string or number) makes `setdefault` raise
`AttributeError`, and a present `movie_data` value that is not a dict
makes the loop raise; both escape the handler since only the upstream
call sits inside `try`. -/
def getVodInfo (basic : Option Item) (upstreamBody : Option JVal) : Except String JVal :=
  let fullInfo := upstreamBody.getD emptyVodDetail
  match basic with
  | none => .ok fullInfo
  | some b =>
    if b.isEmpty then .ok fullInfo
    else
      match fullInfo with
      | .jobj fields =>
        let fields2 := setdefault fields "movie_data" (.jobj [])
        match getField fields2 "movie_data" with
        | some (.jobj md) => .ok (.jobj (setKey fields2 "movie_data" (.jobj (mergeBasic b md))))
        | _ => .error "TypeError"
      | _ => .error "AttributeError"

/-- Embedding of the `get_series_info` branch after the upstream call
(`src/server.py` lines 245 to 258); identical to the VOD branch except
that the merge target is the `info` sub-dict and the fallback carries
`episodes`. -/
def getSeriesInfo (basic : Option Item) (upstreamBody : Option JVal) : Except String JVal :=
  let fullInfo := upstreamBody.getD emptySeriesDetail
  match basic with
  | none => .ok fullInfo
  | some b =>
    if b.isEmpty then .ok fullInfo
    else
      match fullInfo with
      | .jobj fields =>
        let fields2 := setdefault fields "info" (.jobj [])
        match getField fields2 "info" with
        | some (.jobj md) => .ok (.jobj (setKey fields2 "info" (.jobj (mergeBasic b md))))
        | _ => .error "TypeError"
      | _ => .error "AttributeError"

/-- Outcome of the synchronous part of a `player_api` request: either an
immediate HTTP response, the login response (built from request host and
port, out of scope here), or a suspension at the upstream detail call
with the basic record already looked up from the index (the lookup at
`src/server.py` line 219 or 242 happens before the `await`). -/
inductive ApiOutcome where
  | resp : Nat → JVal → ApiOutcome
  | loginInfo : ApiOutcome
  | upstreamVodDetail : Int → Option Item → ApiOutcome
  | upstreamSeriesDetail : Int → Option Item → ApiOutcome
  deriving DecidableEq

/-- The eight actions served from the cache or the detail merge
(`src/server.py` lines 217 to 271). -/
def recognizedActions : List String :=
  ["get_live_streams", "get_live_categories", "get_vod_streams",
   "get_vod_categories", "get_series", "get_series_categories",
   "get_vod_info", "get_series_info"]

/-- JSON body for a list of items. -/
def itemsBody (xs : List Item) : JVal := .jarr (xs.map .jobj)

/-- Embedding of the authenticated part of `player_api`
(`src/server.py` lines 176 to 273) up to any upstream call.  An empty
`action` is falsy and yields the login response.  Otherwise, when
`IN_MEMORY_CACHE` is `None` the handler first retries
`load_cache_to_memory()`; if the cache is still absent it answers 503
`Cache not built` before any action dispatch, so no branch below it
(including the two detail branches) can run.  Recognized list actions
answer from the snapshot; a detail action with its identifier present
suspends at the upstream call; anything else returns an empty list. -/
def playerApi (st : ServerState) (action : String) (vodId seriesId : Option Int) :
    ServerState × ApiOutcome :=
  if action.isEmpty then (st, .loginInfo)
  else
    let st1 := if st.mem.isNone then loadCacheToMemory st else st
    match st1.mem with
    | none => (st1, .resp 503 (.jobj [("error", .jstr "Cache not built")]))
    | some snap =>
      if h : action = "get_vod_info" ∧ vodId.isSome then
        (st1, .upstreamVodDetail (vodId.get h.2) (lookupIdx st1.vodIndex (vodId.get h.2)))
      else if h : action = "get_series_info" ∧ seriesId.isSome then
        (st1, .upstreamSeriesDetail (seriesId.get h.2) (lookupIdx st1.seriesIndex (seriesId.get h.2)))
      else if action = "get_live_streams" then (st1, .resp 200 (itemsBody snap.liveData))
      else if action = "get_live_categories" then (st1, .resp 200 (itemsBody snap.liveCats))
      else if action = "get_vod_streams" then (st1, .resp 200 (itemsBody snap.vodData))
      else if action = "get_vod_categories" then (st1, .resp 200 (itemsBody snap.vodCats))
      else if action = "get_series" then (st1, .resp 200 (itemsBody snap.seriesData))
      else if action = "get_series_categories" then (st1, .resp 200 (itemsBody snap.seriesCats))
      else (st1, .resp 200 (.jarr []))

/-!
Helper lemmas about the dict operations.
-/

theorem getField_setKey_self (t : Item) (k : String) (v : JVal) :
    getField (setKey t k v) k = some v := by
  induction t with
  | nil => simp [setKey, getField]
  | cons kv rest ih =>
    obtain ⟨k2, v2⟩ := kv
    by_cases h : k2 = k
    · simp [setKey, getField, h]
    · simp [setKey, getField, h, ih]

theorem getField_setKey_ne (t : Item) (k k2 : String) (v : JVal) (h : k ≠ k2) :
    getField (setKey t k2 v) k = getField t k := by
  induction t with
  | nil => simp [setKey, getField, Ne.symm h]
  | cons kv rest ih =>
    obtain ⟨k3, v3⟩ := kv
    by_cases h3 : k3 = k2
    · subst h3
      simp [setKey, getField, Ne.symm h]
    · simp [setKey, getField, h3, ih]

theorem lookupIdx_intInsert (acc : IdIndex) (k n : Int) (it : Item) :
    lookupIdx (intInsert acc k it) n = if k = n then some it else lookupIdx acc n := by
  induction acc with
  | nil =>
    by_cases h : k = n <;> simp [intInsert, lookupIdx, h]
  | cons mv rest ih =>
    obtain ⟨m, v⟩ := mv
    by_cases hm : m = k
    · subst hm
      by_cases h : m = n <;> simp [intInsert, lookupIdx, h]
    · by_cases h : m = n
      · subst h
        simp [intInsert, lookupIdx, hm, Ne.symm hm]
      · simp [intInsert, lookupIdx, hm, h, ih]

/-!
C1.  Triggering the refresh endpoint while the job is running.
-/

/-- C1: a trigger of `/refresh_cache` while `JOB_STATUS` is `RUNNING`
returns the busy reply, does not invoke `background_tasks.add_task`
(third component `false`), and leaves the job state and the status
message exactly as they were. -/
theorem c1_busy_single_flight (msg : String) (lastRun : Option String) :
    refresh_cache_endpoint { state := .running, message := msg, lastRun := lastRun }
      = ({ status := "Busy", message := "Refresh already in progress" },
         { state := JobState.running, message := msg, lastRun := lastRun }, false) := rfl

/-!
C7.  Empty prefix list: the filter is the identity.
-/

/-- C7: when no prefixes are configured for the requested content type,
`apply_filters` returns its input unchanged, uncategorized items
included. -/
theorem c7_empty_prefixes_identity (data : List Item) : apply_filters data [] = data := rfl

/-!
C6.  Items lacking both `category_name` and `name`.

The claim quantifies over every prefix set `P`, but with an empty `P`
the source returns the input unchanged before ever resolving category
names (`src/filters.py` lines 19 to 20), so an item lacking both fields
is kept, not dropped.  The guarantee holds for every non-empty `P`.
-/

/-- C6 counterexample: the empty item lacks both `category_name` and
`name`, yet with the empty prefix set it is returned, not dropped. -/
theorem c6_counterexample :
    apply_filters [([] : Item)] [] = [([] : Item)] ∧
    ([] : Item) ∈ apply_filters [([] : Item)] [] := ⟨rfl, by decide⟩

/-- C6 amended: an item whose `category_name` and `name` fields are both
absent or falsy is dropped by `apply_filters` for every NON-EMPTY prefix
list. -/
theorem c6_uncategorized_dropped (data : List Item) (item : Item) (p : String)
    (ps : List String)
    (h1 : isFalsy ((getField item "category_name").getD (.jstr "")) = true)
    (h2 : isFalsy ((getField item "name").getD (.jstr "")) = true) :
    item ∉ apply_filters data (p :: ps) := by
  intro hmem
  have hmem2 : item ∈ data.filter (keepItem ((p :: ps).map (fun q => pyUpper (pyStrip q)))) :=
    hmem
  have hk := (List.mem_filter.mp hmem2).2
  simp [keepItem, resolveCatName, h1, h2] at hk

/-- Witness for C6 amended at a concrete input. -/
theorem c6_uncategorized_dropped_witness :
    ([] : Item) ∉ apply_filters [([] : Item)] ["EN"] :=
  c6_uncategorized_dropped [([] : Item)] [] "EN" [] rfl rfl

/-!
C8.  Upstream detail failure handling.

The `except` clauses of `src/server.py` lines 227 to 229 and 248 to 249
only guard the upstream call and the JSON decoding; a body that decodes
to a non-dict JSON value (for instance an empty array) passes through,
and `full_info.setdefault(...)` then raises `AttributeError` outside any
handler whenever a truthy basic record was found in the index.
-/

/-- C8 counterexample: upstream returns the well-formed but non-object
JSON body `[]` while a cached basic record exists; the handler raises
instead of returning a merged result. -/
theorem c8_counterexample :
    getVodInfo (some [("name", .jstr "Cached Film")]) (some (.jarr []))
      = .error "AttributeError" := rfl

/-- C8 amended: when the upstream detail call raises or its body is not
decodable JSON (`upstreamBody = none`), both handlers substitute the
minimal empty structure and always return a merged result, never an
error: the basic record is merged into `movie_data` for VOD and `info`
for series, and with no basic record the minimal structure itself is
returned. -/
theorem c8_detail_fallback :
    (∀ b : Item, getVodInfo (some b) none
        = .ok (.jobj [("info", .jobj []), ("movie_data", .jobj (mergeBasic b []))])) ∧
    (∀ b : Item, getSeriesInfo (some b) none
        = .ok (.jobj [("info", .jobj (mergeBasic b [])), ("episodes", .jobj [])])) ∧
    getVodInfo none none = .ok emptyVodDetail ∧
    getSeriesInfo none none = .ok emptySeriesDetail :=
  ⟨fun b => by cases b <;> rfl, fun b => by cases b <;> rfl, rfl, rfl⟩

/-!
C5.  Merge precedence of the detail merge.
-/

/-- Modelled from the spec-stated merge rule, as statement vocabulary to
compare against the source `mergeBasic`: the basic value is taken only
when the upstream value is absent or falsy. -/
def mergeFieldSpec : Option JVal → Option JVal → Option JVal
  | some v, none => some v
  | some v, some w => if isFalsy w then some v else some w
  | none, w => w

theorem anyOverMap {α β : Type} (l : List α) (f : α → β) (p : β → Bool) :
    (l.map f).any p = l.any (fun a => p (f a)) := by
  induction l with
  | nil => rfl
  | cons a l ih => simp [ih]

theorem getField_eq_none_of_not_mem (t : Item) (k : String) (h : k ∉ t.map Prod.fst) :
    getField t k = none := by
  induction t with
  | nil => rfl
  | cons kv rest ih =>
    obtain ⟨k2, v2⟩ := kv
    simp only [List.map_cons, List.mem_cons] at h
    push_neg at h
    simp [getField, Ne.symm h.1, ih h.2]

/-- Per-key behaviour of the merge loop: for duplicate-free basic
records (every real Python dict), the merged value of each key follows
`mergeFieldSpec`. -/
theorem mergeBasic_getField (b : Item) :
    ∀ (t : Item) (k : String), (b.map Prod.fst).Nodup →
      getField (mergeBasic b t) k = mergeFieldSpec (getField b k) (getField t k) := by
  induction b with
  | nil => intro t k _; simp [mergeBasic, getField, mergeFieldSpec]
  | cons kv b ih =>
    intro t k hnd
    obtain ⟨k0, v0⟩ := kv
    have hnd2 : (b.map Prod.fst).Nodup := (List.nodup_cons.mp hnd).2
    have hk0 : k0 ∉ b.map Prod.fst := (List.nodup_cons.mp hnd).1
    have hstep : mergeBasic ((k0, v0) :: b) t
        = mergeBasic b
            (match getField t k0 with
             | none => setKey t k0 v0
             | some w => if isFalsy w then setKey t k0 v0 else t) := rfl
    rw [hstep, ih _ k hnd2]
    by_cases hk : k0 = k
    · subst hk
      have hbk : getField b k0 = none := getField_eq_none_of_not_mem b k0 hk0
      rw [hbk]
      cases hw : getField t k0 with
      | none =>
        simp only [hw, getField_setKey_self]
        simp [getField, mergeFieldSpec]
      | some w =>
        by_cases hfw : isFalsy w = true
        · simp only [hw, if_pos hfw, getField_setKey_self]
          simp [getField, mergeFieldSpec, hfw]
        · simp only [hw, if_neg hfw]
          simp [getField, mergeFieldSpec, hw, hfw]
    · have hcons : getField ((k0, v0) :: b) k = getField b k := by
        simp [getField, hk]
      rw [hcons]
      have hne : k ≠ k0 := fun h => hk h.symm
      cases hw : getField t k0 with
      | none => simp only [hw, getField_setKey_ne t k k0 v0 hne]
      | some w =>
        by_cases hfw : isFalsy w = true
        · simp only [hw, if_pos hfw, getField_setKey_ne t k k0 v0 hne]
        · simp only [hw, if_neg hfw]

/-- C5: in the detail merge, each field of the basic record reaches the
target sub-dict only when that field is absent there or its value is
falsy, and a truthy upstream value is never overwritten
(`mergeFieldSpec` law); the target sub-structure is `movie_data` for VOD
and `info` for series, witnessed on the spec example where the merged
result is `title = "X"`, `plot = "real plot"`. -/
theorem c5_merge_precedence :
    (∀ (b t : Item) (k : String), (b.map Prod.fst).Nodup →
        getField (mergeBasic b t) k = mergeFieldSpec (getField b k) (getField t k)) ∧
    mergeBasic [("title", .jstr "X"), ("plot", .jstr "")]
        [("title", .jstr ""), ("plot", .jstr "real plot")]
      = [("title", .jstr "X"), ("plot", .jstr "real plot")] ∧
    getVodInfo (some [("title", .jstr "X"), ("plot", .jstr "")])
        (some (.jobj [("info", .jobj [("tmdb_id", .jint 5)]),
                      ("movie_data", .jobj [("title", .jstr ""), ("plot", .jstr "real plot")])]))
      = .ok (.jobj [("info", .jobj [("tmdb_id", .jint 5)]),
                    ("movie_data", .jobj [("title", .jstr "X"), ("plot", .jstr "real plot")])]) ∧
    getSeriesInfo (some [("title", .jstr "X"), ("plot", .jstr "")])
        (some (.jobj [("info", .jobj [("title", .jstr ""), ("plot", .jstr "real plot")]),
                      ("episodes", .jobj [])]))
      = .ok (.jobj [("info", .jobj [("title", .jstr "X"), ("plot", .jstr "real plot")]),
                    ("episodes", .jobj [])]) :=
  ⟨mergeBasic_getField, rfl, rfl, rfl⟩

/-- Witness for C5 at a concrete key. -/
theorem c5_merge_precedence_witness :
    getField (mergeBasic [("title", JVal.jstr "X")] [("title", JVal.jstr "")]) "title"
      = mergeFieldSpec (some (.jstr "X")) (some (.jstr "")) :=
  c5_merge_precedence.1 [("title", .jstr "X")] [("title", .jstr "")] "title" (by decide)

/-!
C10.  Behaviour of `player_api` when no snapshot was ever loaded.
-/

theorem loadCacheToMemory_unreadable (st : ServerState)
    (h : st.disk = .absent ∨ st.disk = .corrupt) : loadCacheToMemory st = st := by
  rcases h with h | h <;> simp [loadCacheToMemory, h]

/-- C10: with no in-memory cache and no readable cache file, every
recognized action, the two detail actions included, receives the 503
`Cache not built` response, produced before the dispatch ever reaches an
upstream call (the outcome is an immediate `resp`, not an upstream
suspension) and without altering the server state. -/
theorem c10_cache_not_built (st : ServerState) (action : String)
    (vodId seriesId : Option Int)
    (ha : action ∈ recognizedActions) (hm : st.mem = none)
    (hd : st.disk = .absent ∨ st.disk = .corrupt) :
    playerApi st action vodId seriesId
      = (st, .resp 503 (.jobj [("error", .jstr "Cache not built")])) := by
  have hload : loadCacheToMemory st = st := loadCacheToMemory_unreadable st hd
  have hne : action.isEmpty = false := by
    simp only [recognizedActions, List.mem_cons, List.not_mem_nil, or_false] at ha
    rcases ha with rfl | rfl | rfl | rfl | rfl | rfl | rfl | rfl <;> rfl
  simp [playerApi, hne, hm, hload]

/-- Witness for C10 on the empty initial state and a detail action. -/
theorem c10_cache_not_built_witness :
    playerApi
      { disk := .absent, mem := none, vodIndex := [], seriesIndex := [],
        job := { state := .idle, message := "Ready", lastRun := none } }
      "get_vod_info" (some 5) none
      = ({ disk := .absent, mem := none, vodIndex := [], seriesIndex := [],
           job := { state := .idle, message := "Ready", lastRun := none } },
         .resp 503 (.jobj [("error", .jstr "Cache not built")])) :=
  c10_cache_not_built _ "get_vod_info" (some 5) none (by decide) rfl (Or.inl rfl)

/-!
C2.  Retained categories after a successful per-type refresh.

The derivation at `src/server.py` lines 134 to 135 filters the FETCHED
category list by the identifiers referenced on retained streams.  A
retained stream whose `category_id` matches no fetched category (the
stream passed the filter through its own `category_name` or `name`
field) therefore references an identifier that appears in no published
category: the claimed "no omissions" direction fails.
-/

/-- Decides whether some item of the list carries `i` as its category
identifier, as Python reads it with `.get("category_id")`. -/
def catIdReferenced (items : List Item) (i : JVal) : Bool :=
  items.any (fun c => jvalBeq (refCatId c) i)

/-- Stream used in the C2 counterexample: it is retained through its own
`category_name`, while the fetched category list is empty. -/
def c2Stream : Item := [("category_id", .jint 1), ("category_name", .jstr "EN | Movies")]

/-- C2 counterexample: a successful per-type refresh retains a stream
referencing category identifier 1 while publishing an empty category
list, so a retained-referenced identifier is missing from the published
categories. -/
theorem c2_counterexample :
    processType (.ok []) (.ok [c2Stream]) ["EN"] = .ok ([c2Stream], []) ∧
    catIdReferenced [c2Stream] (.jint 1) = true ∧
    catIdReferenced ([] : List Item) (.jint 1) = false := ⟨rfl, rfl, rfl⟩

/-- C2 amended: after a successful per-type refresh, the published
category list consists exactly of the FETCHED categories whose
identifier is referenced by at least one retained item (no orphans, and
no fetched category referenced by a retained item is omitted); an
identifier referenced by a retained item but absent from the fetched
category list yields no entry. -/
theorem c2_retained_categories (rawCats rawStreams : List Item) (ps : List String)
    (streams cats : List Item)
    (h : processType (.ok rawCats) (.ok rawStreams) ps = .ok (streams, cats)) :
    (∀ c, c ∈ cats ↔ c ∈ rawCats ∧ catIdReferenced streams (refCatId c) = true) ∧
    (∀ i, catIdReferenced cats i = true ↔
        (catIdReferenced rawCats i = true ∧ catIdReferenced streams i = true)) := by
  have h2 : Except.bind (buildCatMap rawCats)
      (fun catMap => Except.ok (refreshTypePure catMap rawCats rawStreams ps))
      = Except.ok (streams, cats) := h
  cases hcm : buildCatMap rawCats with
  | error e =>
    rw [hcm] at h2
    exact Except.noConfusion h2
  | ok catMap =>
    rw [hcm] at h2
    have h3 : Except.ok (refreshTypePure catMap rawCats rawStreams ps)
        = Except.ok (streams, cats) := h2
    have hpair : refreshTypePure catMap rawCats rawStreams ps = (streams, cats) :=
      Except.ok.inj h3
    have hstreams : apply_filters (rawStreams.map (enrichStream catMap)) ps = streams :=
      congrArg Prod.fst hpair
    have hcats :
        rawCats.filter (fun c =>
            ((apply_filters (rawStreams.map (enrichStream catMap)) ps).map refCatId).any
              (fun i => jvalBeq i (refCatId c)))
          = cats := congrArg Prod.snd hpair
    rw [hstreams] at hcats
    constructor
    · intro c
      rw [← hcats, List.mem_filter]
      have heq : (streams.map refCatId).any (fun i => jvalBeq i (refCatId c))
          = catIdReferenced streams (refCatId c) := by
        rw [catIdReferenced, anyOverMap]
      rw [heq]
    · intro i
      rw [← hcats]
      simp only [catIdReferenced, List.any_eq_true, List.mem_filter]
      constructor
      · rintro ⟨c, ⟨hcraw, href⟩, hbeq⟩
        have hci : refCatId c = i := (jvalBeq_iff _ _).mp hbeq
        obtain ⟨x, hxmem, hxbeq⟩ := href
        obtain ⟨s, hsmem, hsx⟩ := List.mem_map.mp hxmem
        have hxc : x = refCatId c := (jvalBeq_iff _ _).mp hxbeq
        refine ⟨⟨c, hcraw, hbeq⟩, ⟨s, hsmem, (jvalBeq_iff _ _).mpr ?_⟩⟩
        rw [hsx, hxc, hci]
      · rintro ⟨⟨c, hcraw, hcbeq⟩, s, hsmem, hsbeq⟩
        have hci : refCatId c = i := (jvalBeq_iff _ _).mp hcbeq
        have hsi : refCatId s = i := (jvalBeq_iff _ _).mp hsbeq
        refine ⟨c, ⟨hcraw, ?_⟩, hcbeq⟩
        exact ⟨refCatId s, List.mem_map_of_mem refCatId hsmem,
          (jvalBeq_iff _ _).mpr (hsi.trans hci.symm)⟩

/-- Category used in the C2 witness. -/
def c2Cat : Item := [("category_id", .jint 1), ("category_name", .jstr "EN | Movies")]

/-- Witness for C2 amended at a concrete successful refresh. -/
theorem c2_retained_categories_witness :
    c2Cat ∈ [c2Cat] ↔ c2Cat ∈ [c2Cat] ∧ catIdReferenced [c2Stream] (refCatId c2Cat) = true :=
  (c2_retained_categories [c2Cat] [c2Stream] ["EN"] [c2Stream] [c2Cat] rfl).1 c2Cat

/-!
C9.  Index construction from a loaded snapshot.

The comprehension guard `if v.get(idKey)` only skips items whose
identifier is absent or falsy.  A present, truthy identifier that `int`
cannot coerce (for example the string `"abc"`) raises `ValueError`
inside the comprehension; the exception is caught by the `try` of
`load_cache_to_memory`, logged as `Failed to load cache`, and aborts the
whole index assignment instead of skipping the one item.
-/

/-- An item is unproblematic for the index build: its identifier is
absent or falsy (then the guard skips it) or coercible to an
integer. -/
def goodIdItem (idKey : String) (it : Item) : Prop :=
  isFalsy (itemIdVal idKey it) = true ∨ (coerceId (itemIdVal idKey it)).isSome = true

/-- Items of the list that the comprehension keys under `n`. -/
def idMatches (idKey : String) (n : Int) (it : Item) : Bool :=
  !isFalsy (itemIdVal idKey it) && (coerceId (itemIdVal idKey it) == some n)

theorem getLast?_cons_elim {α : Type} (a : α) (l : List α) :
    (a :: l).getLast? = (l.getLast?).elim (some a) some := by
  cases l with
  | nil => rfl
  | cons b l2 =>
    rw [List.getLast?_cons_cons]
    cases hl : (b :: l2).getLast? with
    | none => simp at hl
    | some x => rfl

theorem buildIndexAux_good (idKey : String) :
    ∀ (items : List Item), (∀ it ∈ items, goodIdItem idKey it) →
      ∀ acc : IdIndex, ∃ m, buildIndexAux idKey acc items = .ok m ∧
        ∀ n : Int, lookupIdx m n
          = ((items.filter (idMatches idKey n)).getLast?).elim (lookupIdx acc n) some := by
  intro items
  induction items with
  | nil =>
    intro _ acc
    exact ⟨acc, rfl, fun n => by simp⟩
  | cons it rest ih =>
    intro h acc
    have hrest : ∀ x ∈ rest, goodIdItem idKey x :=
      fun x hx => h x (List.mem_cons_of_mem it hx)
    by_cases hf : isFalsy (itemIdVal idKey it) = true
    · obtain ⟨m, hm, hlook⟩ := ih hrest acc
      have hnm : ∀ n : Int, idMatches idKey n it = false := by
        intro n; simp [idMatches, hf]
      have hstep : buildIndexAux idKey acc (it :: rest) = buildIndexAux idKey acc rest := by
        simp [buildIndexAux, hf]
      refine ⟨m, hstep.trans hm, fun n => ?_⟩
      rw [hlook n, List.filter_cons, hnm n]
      simp
    · have hc : (coerceId (itemIdVal idKey it)).isSome = true := by
        rcases h it (List.mem_cons_self it rest) with h1 | h2
        · exact absurd h1 hf
        · exact h2
      obtain ⟨k, hk⟩ := Option.isSome_iff_exists.mp hc
      obtain ⟨m, hm, hlook⟩ := ih hrest (intInsert acc k it)
      have hstep : buildIndexAux idKey acc (it :: rest)
          = buildIndexAux idKey (intInsert acc k it) rest := by
        simp [buildIndexAux, hf, hk]
      refine ⟨m, hstep.trans hm, fun n => ?_⟩
      rw [hlook n]
      have hfb : isFalsy (itemIdVal idKey it) = false := by
        simpa using hf
      have hmatch : idMatches idKey n it = (k == n) := by
        simp [idMatches, hfb, hk]
      rw [List.filter_cons, hmatch]
      by_cases hkn : k = n
      · subst hkn
        simp only [beq_self_eq_true, if_pos, getLast?_cons_elim]
        cases hlast : (rest.filter (idMatches idKey k)).getLast? with
        | none => simp [lookupIdx_intInsert]
        | some it2 => simp
      · have : (k == n) = false := by simp [hkn]
        rw [this]
        simp only [Bool.false_eq_true, if_false]
        cases hlast : (rest.filter (idMatches idKey n)).getLast? with
        | none => simp [lookupIdx_intInsert, hkn]
        | some it2 => simp

theorem buildIndexAux_bad (idKey : String) :
    ∀ (items : List Item) (it : Item), it ∈ items →
      isFalsy (itemIdVal idKey it) = false → coerceId (itemIdVal idKey it) = none →
      ∀ acc, buildIndexAux idKey acc items = .error "ValueError: invalid literal for int" := by
  intro items
  induction items with
  | nil => intro it hmem; cases hmem
  | cons hd rest ih =>
    intro it hmem hf hc acc
    rcases List.mem_cons.mp hmem with rfl | hmem2
    · simp [buildIndexAux, hf, hc]
    · by_cases hfh : isFalsy (itemIdVal idKey hd) = true
      · have hstep : buildIndexAux idKey acc (hd :: rest) = buildIndexAux idKey acc rest := by
          simp [buildIndexAux, hfh]
        rw [hstep]
        exact ih it hmem2 hf hc acc
      · cases hch : coerceId (itemIdVal idKey hd) with
        | none => simp [buildIndexAux, hfh, hch]
        | some k =>
          have hstep : buildIndexAux idKey acc (hd :: rest)
              = buildIndexAux idKey (intInsert acc k hd) rest := by
            simp [buildIndexAux, hfh, hch]
          rw [hstep]
          exact ih it hmem2 hf hc _

/-- Item with a truthy identifier that `int` cannot coerce. -/
def badIdItem : Item := [("stream_id", .jstr "abc"), ("name", .jstr "Bad Movie")]

/-- C9 counterexample: an item whose `stream_id` is the non-numeric
string `"abc"` is not skipped; the whole index build raises
`ValueError` (under the claim the build would succeed with the item
skipped, yielding an empty index). -/
theorem c9_counterexample :
    buildIndex "stream_id" [badIdItem] = .error "ValueError: invalid literal for int" ∧
    buildIndex "stream_id" [badIdItem] ≠ .ok [] := ⟨rfl, by decide⟩

/-- C9 amended: an item whose identifier is absent or falsy is skipped
without error; when every item has an absent, falsy or coercible
identifier the build succeeds and each item is inserted keyed by its
numeric identifier, later items overwriting earlier ones with the same
key; but a truthy identifier not coercible to an integer makes the whole
build fail with `ValueError`, which `load_cache_to_memory` treats as a
failed load (the exception is caught and logged and the index assignment
is aborted), not as a per-item skip. -/
theorem c9_index_build :
    (∀ (idKey : String) (it : Item) (rest : List Item),
        isFalsy (itemIdVal idKey it) = true →
        buildIndex idKey (it :: rest) = buildIndex idKey rest) ∧
    (∀ (idKey : String) (items : List Item), (∀ it ∈ items, goodIdItem idKey it) →
        ∃ m, buildIndex idKey items = .ok m ∧
          ∀ n : Int, lookupIdx m n = (items.filter (idMatches idKey n)).getLast?) ∧
    (∀ (idKey : String) (items : List Item) (it : Item), it ∈ items →
        isFalsy (itemIdVal idKey it) = false → coerceId (itemIdVal idKey it) = none →
        buildIndex idKey items = .error "ValueError: invalid literal for int") := by
  refine ⟨?_, ?_, ?_⟩
  · intro idKey it rest hf
    simp [buildIndex, buildIndexAux, hf]
  · intro idKey items h
    obtain ⟨m, hm, hlook⟩ := buildIndexAux_good idKey items h []
    refine ⟨m, hm, fun n => ?_⟩
    rw [hlook n]
    cases (items.filter (idMatches idKey n)).getLast? with
    | none => simp [lookupIdx]
    | some it2 => simp
  · intro idKey items it hmem hf hc
    exact buildIndexAux_bad idKey items it hmem hf hc []

/-- Witness for C9 at concrete inputs: a falsy identifier is skipped, a
good list builds with last-wins lookup, and a bad identifier fails the
build. -/
theorem c9_index_build_witness :
    buildIndex "stream_id" [[("stream_id", JVal.jstr "")]] = buildIndex "stream_id" [] ∧
    (∃ m, buildIndex "stream_id" [[("stream_id", JVal.jint 7)]] = .ok m ∧
      ∀ n : Int, lookupIdx m n
        = ([[("stream_id", JVal.jint 7)]].filter (idMatches "stream_id" n)).getLast?) ∧
    buildIndex "stream_id" [badIdItem] = .error "ValueError: invalid literal for int" :=
  ⟨c9_index_build.1 "stream_id" [("stream_id", .jstr "")] [] rfl,
   c9_index_build.2.1 "stream_id" [[("stream_id", .jint 7)]]
     (by intro it hit; simp only [List.mem_singleton] at hit; subst hit
         exact Or.inr rfl),
   c9_index_build.2.2 "stream_id" [badIdItem] badIdItem (by simp) rfl rfl⟩

/-!
C4.  Failure handling of the refresh job.

A failure during the per-type loop reaches the handler at
`src/server.py` lines 159 to 162 before anything was written: disk,
memory and indexes are untouched.  But when the failing step is the disk
write itself, the previous snapshot is already gone:
`json.dump(final_cache, open(CACHE_FILE, "w"))` truncates the cache file
on open, so an exception during the dump leaves a truncated file where
the previous snapshot used to be.
-/

/-- Previously published VOD item used by the concrete states. -/
def oldItem : Item := [("stream_id", .jint 7), ("name", .jstr "Old Movie")]

/-- Previously published snapshot. -/
def oldSnap : Snapshot :=
  { lastUpdated := "2024-01-01 00:00:00", liveData := [], vodData := [oldItem],
    seriesData := [], liveCats := [], vodCats := [], seriesCats := [] }

/-- A server state serving `oldSnap` with consistent indexes. -/
def stServing : ServerState :=
  { disk := .snapFile oldSnap, mem := some oldSnap, vodIndex := [(7, oldItem)],
    seriesIndex := [], job := { state := .idle, message := "Ready", lastRun := none } }

/-- Refresh environment whose fetches succeed but whose disk write
fails. -/
def envWriteFail : RefreshEnv :=
  { liveCats := .ok [], liveStreams := .ok [], vodCats := .ok [], vodStreams := .ok [],
    seriesCats := .ok [], seriesStreams := .ok [], livePs := [], vodPs := [],
    seriesPs := [], writeOk := .error "No space left on device",
    now := "2024-01-02 00:00:00" }

/-- Refresh environment whose very first fetch fails. -/
def envFetchFail : RefreshEnv :=
  { liveCats := .error "Connection refused", liveStreams := .ok [], vodCats := .ok [],
    vodStreams := .ok [], seriesCats := .ok [], seriesStreams := .ok [], livePs := [],
    vodPs := [], seriesPs := [], writeOk := .ok (), now := "2024-01-02 00:00:00" }

/-- C4 counterexample: when the refresh fails at the disk-write step the
job does transition to `ERROR` with the failure detail, but the
previously published on-disk snapshot is NOT left unchanged: the file
was truncated by `open(CACHE_FILE, "w")` and is now corrupt. -/
theorem c4_counterexample :
    (performRefresh envWriteFail stServing).job.state = JobState.error ∧
    (performRefresh envWriteFail stServing).job.message = "No space left on device" ∧
    stServing.disk = .snapFile oldSnap ∧
    (performRefresh envWriteFail stServing).disk = .corrupt ∧
    (performRefresh envWriteFail stServing).disk ≠ stServing.disk :=
  ⟨rfl, rfl, rfl, rfl, by decide⟩

/-- C4 amended: if the refresh fails during the per-type fetch loop, the
job transitions to `ERROR` with the failure detail as its message and
disk, memory and indexes are all left exactly as they were (the
previously published snapshot stays servable).  If instead the disk
write itself fails, the job still transitions to `ERROR` with the detail
and the in-memory snapshot and indexes survive unchanged, but the
on-disk file is left truncated rather than holding the previous
snapshot. -/
theorem c4_error_preserves_published (env : RefreshEnv) (st : ServerState) :
    (∀ e, runAllTypes env = .error e →
        performRefresh env st
          = { st with
              job := { state := .error, message := e, lastRun := st.job.lastRun } }) ∧
    (∀ r e, runAllTypes env = .ok r → env.writeOk = .error e →
        performRefresh env st
          = { st with
              disk := .corrupt,
              job := { state := .error, message := e, lastRun := st.job.lastRun } }) := by
  constructor
  · intro e he
    simp [performRefresh, he]
  · intro r e hr hw
    obtain ⟨lr, vr, sr⟩ := r
    simp [performRefresh, hr, hw]

/-- Witness for C4 amended on the two concrete failing environments. -/
theorem c4_error_preserves_published_witness :
    performRefresh envFetchFail stServing
      = { stServing with
          job := { state := .error, message := "Connection refused",
                   lastRun := stServing.job.lastRun } } ∧
    performRefresh envWriteFail stServing
      = { stServing with
          disk := .corrupt,
          job := { state := .error, message := "No space left on device",
                   lastRun := stServing.job.lastRun } } :=
  ⟨(c4_error_preserves_published envFetchFail stServing).1 "Connection refused" rfl,
   (c4_error_preserves_published envWriteFail stServing).2
     (([], []), ([], []), ([], [])) "No space left on device" rfl rfl⟩

/-!
C3.  Atomicity of the published snapshot/index pair.

Readers (the `player_api` coroutine) run on the asyncio event loop, and
`perform_refresh` yields only at its `await` points: the upstream
fetches, the threaded JSON decodes and the threaded disk write, all of
which precede `load_cache_to_memory()`.  From the completion of the disk
write to the return of the coroutine there is no further `await`, so the
shared cache and index globals, which are touched only inside that final
block, are observed by a concurrently scheduled reader either as they
were before the refresh or as the refresh leaves them;
`refreshObservedViews` lists these two observable views.  (A reader that
still has no cache and loads the file while the threaded write is in
flight sees unparseable JSON; `json.load` raises inside the `try` of
`load_cache_to_memory`, leaving memory absent, the `corrupt` case, so
truncated data is never served.)

The claimed single-cycle property nevertheless fails: when the freshly
written snapshot carries a VOD or series item with a truthy identifier
that `int` cannot coerce, the index comprehension raises AFTER
`IN_MEMORY_CACHE` was already replaced (line 69 precedes lines 74 and
78), so the post-refresh view pairs the new snapshot with the index of
the previous cycle, and the job still reports success.
-/

/-- View of the shared cache/index globals a reader consults. -/
def memView (st : ServerState) : Option Snapshot × IdIndex × IdIndex :=
  (st.mem, st.vodIndex, st.seriesIndex)

/-- A view is fully formed and single-cycle: absent cache comes with the
initial empty indexes, and a present snapshot comes with exactly the
indexes its own item lists build. -/
def viewConsistent (p : Option Snapshot × IdIndex × IdIndex) : Prop :=
  match p.1 with
  | none => p.2.1 = [] ∧ p.2.2 = []
  | some s =>
      buildIndex "stream_id" s.vodData = .ok p.2.1 ∧
      buildIndex "series_id" s.seriesData = .ok p.2.2

/-- The views observable by a reader scheduled at any `await` boundary
of one `perform_refresh` run (see the section comment). -/
def refreshObservedViews (env : RefreshEnv) (st : ServerState) :
    List (Option Snapshot × IdIndex × IdIndex) :=
  [memView st, memView (performRefresh env st)]

/-- Refresh environment producing a snapshot whose only VOD item has the
uncoercible identifier `"abc"` (no prefixes configured, so the item is
retained by the filter as the source would retain it). -/
def envBadVod : RefreshEnv :=
  { liveCats := .ok [], liveStreams := .ok [], vodCats := .ok [],
    vodStreams := .ok [badIdItem], seriesCats := .ok [], seriesStreams := .ok [],
    livePs := [], vodPs := [], seriesPs := [], writeOk := .ok (),
    now := "2024-01-02 00:00:00" }

/-- The snapshot `envBadVod` publishes. -/
def badSnap : Snapshot :=
  { lastUpdated := "2024-01-02 00:00:00", liveData := [], vodData := [badIdItem],
    seriesData := [], liveCats := [], vodCats := [], seriesCats := [] }

/-- C3 counterexample: after a refresh whose snapshot carries the
uncoercible VOD identifier `"abc"`, the published view pairs the NEW
snapshot with the PREVIOUS cycle index (still keyed 7 to the old item,
which the new snapshot does not contain), the view is not consistent,
and the job even reports success. -/
theorem c3_counterexample :
    (performRefresh envBadVod stServing).mem = some badSnap ∧
    (performRefresh envBadVod stServing).vodIndex = [(7, oldItem)] ∧
    stServing.mem = some oldSnap ∧
    oldSnap ≠ badSnap ∧
    ¬ viewConsistent (memView (performRefresh envBadVod stServing)) ∧
    (performRefresh envBadVod stServing).job.state = JobState.idle :=
  ⟨rfl, rfl, rfl, by decide,
   fun h => absurd h.1 (by decide), rfl⟩

theorem loadCacheToMemory_snapOk (st : ServerState) (snap : Snapshot) (vi si : IdIndex)
    (hd : st.disk = .snapFile snap)
    (hv : buildIndex "stream_id" snap.vodData = .ok vi)
    (hs : buildIndex "series_id" snap.seriesData = .ok si) :
    loadCacheToMemory st
      = { st with mem := some snap, vodIndex := vi, seriesIndex := si } := by
  simp [loadCacheToMemory, hd, hv, hs]

/-- C3 amended: provided every VOD and series item of the snapshot a
successful run would publish has an absent, falsy or integer-coercible
identifier, every view a reader can observe across the run, before or
after the single await-free publish block, is fully formed and
single-cycle; without that proviso the new snapshot can be published
paired with the previous cycle index (see the counterexample). -/
theorem c3_atomic_publish (env : RefreshEnv) (st : ServerState)
    (hst : viewConsistent (memView st))
    (hgood : ∀ r, runAllTypes env = .ok r →
        (∀ it ∈ r.2.1.1, goodIdItem "stream_id" it) ∧
        (∀ it ∈ r.2.2.1, goodIdItem "series_id" it)) :
    ∀ p ∈ refreshObservedViews env st, viewConsistent p := by
  intro p hp
  rcases List.mem_cons.mp hp with rfl | hp2
  · exact hst
  · have hp3 : p = memView (performRefresh env st) := by
      simpa [refreshObservedViews] using hp2
    subst hp3
    cases hr : runAllTypes env with
    | error e =>
      have hfe : performRefresh env st
          = { st with
              job := { state := .error, message := e, lastRun := st.job.lastRun } } := by
        simp [performRefresh, hr]
      rw [hfe]
      exact hst
    | ok r =>
      obtain ⟨⟨l1, l2⟩, ⟨v1, v2⟩, ⟨s1, s2⟩⟩ := r
      obtain ⟨hgv, hgs⟩ := hgood _ hr
      simp only at hgv hgs
      cases hw : env.writeOk with
      | error e =>
        have hfe : performRefresh env st
            = { st with
                disk := .corrupt,
                job := { state := .error, message := e, lastRun := st.job.lastRun } } := by
          simp [performRefresh, hr, hw]
        rw [hfe]
        exact hst
      | ok u =>
        obtain ⟨vi, hvi, _⟩ := buildIndexAux_good "stream_id" v1 hgv []
        obtain ⟨si, hsi, _⟩ := buildIndexAux_good "series_id" s1 hgs []
        have hvi2 : buildIndex "stream_id" v1 = .ok vi := hvi
        have hsi2 : buildIndex "series_id" s1 = .ok si := hsi
        have hload := loadCacheToMemory_snapOk
          { st with
            disk := DiskState.snapFile { lastUpdated := env.now, liveData := l1,
                                         vodData := v1, seriesData := s1, liveCats := l2,
                                         vodCats := v2, seriesCats := s2 } }
          { lastUpdated := env.now, liveData := l1, vodData := v1, seriesData := s1,
            liveCats := l2, vodCats := v2, seriesCats := s2 }
          vi si rfl hvi2 hsi2
        simp only [performRefresh, hr, hw, hload]
        exact ⟨hvi2, hsi2⟩

/-- Refresh environment with empty successful fetches. -/
def envGood : RefreshEnv :=
  { liveCats := .ok [], liveStreams := .ok [], vodCats := .ok [], vodStreams := .ok [],
    seriesCats := .ok [], seriesStreams := .ok [], livePs := [], vodPs := [],
    seriesPs := [], writeOk := .ok (), now := "2024-01-02 00:00:00" }

/-- Witness for C3 amended on a concrete well-formed run. -/
theorem c3_atomic_publish_witness :
    viewConsistent (memView (performRefresh envGood stServing)) := by
  refine c3_atomic_publish envGood stServing ⟨rfl, rfl⟩ ?_
    (memView (performRefresh envGood stServing)) ?_
  · intro r hr
    have h0 : runAllTypes envGood = Except.ok (([], []), ([], []), ([], [])) := rfl
    have hreq : r = (([], []), ([], []), ([], [])) :=
      Except.ok.inj (hr.symm.trans h0)
    subst hreq
    exact ⟨by simp, by simp⟩
  · simp [refreshObservedViews]

end XtreamProxy
